import Mathlib

/-!
Shallow embedding of the dbatsuper runtime core (scheduler, event handler
lifecycle, connection reader/writer) for checking the natural-language
specification against the source.

Source files embedded:
  * src/dbat/events/base.py   (EventHandler._execute_event, _mark_state)
  * src/dbat/core.py          (Application.run, execute_aborts,
                               cleanup_events, execute_events)
  * src/dbat/net.py           (Connection.run teardown, run_reader,
                               run_writer, module registries)

Python-level behaviour that the claims depend on (call arity, the type of a
module-level registry, exception classes) is made explicit so that the bugs
the source actually has are visible in the model instead of being silently
repaired.
-/

namespace Dbat

/-- Python exception classes that the embedded code can raise or catch. -/
inductive PyExc
  | cancelledError   -- asyncio.CancelledError
  | eventError       -- EventHandler.EventError
  | typeError        -- TypeError (e.g. wrong call arity)
  | keyError         -- KeyError
  | otherError       -- any other Exception
  deriving DecidableEq, Repr

/-! Section: EventHandler execution (src/dbat/events/base.py) -/

/-- A store operation issued by the handler lifecycle: `_mark_state` issues a
single `UPDATE dbat.events SET current_state = $1 WHERE id = $2`; the
lifecycle never issues a `DELETE`. -/
inductive StoreOp
  | update (id : Nat) (state : String)
  | delete (id : Nat)
  deriving DecidableEq, Repr

/-- Outcome of awaiting `self.run(conn)` inside `_execute_event`. -/
inductive RunResult
  | ok                 -- `run` returns normally
  | raisesCancelled    -- task cancelled at a suspension point inside `run`
  | raisesEventError   -- `run` raises EventHandler.EventError
  | raisesOther        -- `run` raises any other Exception
  deriving DecidableEq, Repr

/-- Number of positional parameters of `EventHandler._mark_state` besides
`self`: the source signature is `async def _mark_state(self, new_state: str)`. -/
def markStateParamCount : Nat := 1

/-- A Python call of `self._mark_state(...)` with `argCount` positional
arguments. If the arity matches the signature it performs the single
`UPDATE ... SET current_state = state WHERE id = id`; otherwise Python raises
`TypeError` before the body runs. -/
def callMarkState (argCount : Nat) (id : Nat) (state : String) :
    Except PyExc StoreOp :=
  if argCount = markStateParamCount then .ok (.update id state)
  else .error .typeError

/-- Result of one `_execute_event` run: the store operations it issued, whether
the `run` transaction committed, and any exception escaping the coroutine. -/
structure ExecResult where
  storeOps : List StoreOp
  committed : Bool
  escaped : Option PyExc
  deriving DecidableEq, Repr

/-- The exception (if any) escaping the transaction block of `_execute_event`:

```
async with conn.transaction():
    try:
        await self.run(conn)
        await self._mark_state(conn, "finished")   -- two positional args
    except (asyncio.CancelledError, self.EventError) as e:
        raise
    except Exception as e:
        raise self.EventError(...)
```

The `finished` call site passes TWO positional arguments `(conn, "finished")`
to a method whose signature accepts one, so on the normal-return path Python
raises `TypeError`, which the `except Exception` clause rewraps into
`EventError`. -/
def innerBlock (id : Nat) (res : RunResult) : Option PyExc :=
  match res with
  | .ok =>
      match callMarkState 2 id "finished" with
      | .ok _ => none
      | .error .cancelledError => some .cancelledError
      | .error .eventError => some .eventError
      | .error _ => some .eventError   -- `except Exception: raise EventError`
  | .raisesCancelled => some .cancelledError   -- re-raised
  | .raisesEventError => some .eventError      -- re-raised
  | .raisesOther => some .eventError           -- rewrapped into EventError

/-- Model of `EventHandler._execute_event` for an event id and a `run` outcome
(`validate_task` of the base class is a no-op that returns normally).
The transaction commits iff no exception escapes the transaction block; the
outer handlers then map `CancelledError ↦ _mark_state("cancelled")`,
`EventError ↦ _mark_state("error")` (both valid one-argument calls). -/
def executeEvent (id : Nat) (res : RunResult) : ExecResult :=
  match innerBlock id res with
  | none =>
      -- transaction committed; the one `finished` update would be inside it
      { storeOps := [.update id "finished"], committed := true, escaped := none }
  | some .cancelledError =>
      match callMarkState 1 id "cancelled" with
      | .ok op => { storeOps := [op], committed := false, escaped := none }
      | .error e => { storeOps := [], committed := false, escaped := some e }
  | some .eventError =>
      match callMarkState 1 id "error" with
      | .ok op => { storeOps := [op], committed := false, escaped := none }
      | .error e => { storeOps := [], committed := false, escaped := some e }
  | some e => { storeOps := [], committed := false, escaped := some e }

/-! Section: Connection writer (src/dbat/net.py, Connection.run_writer) -/

/-- An outbound protocol unit: raw bytes and a control-flag bitfield. -/
structure OutMessage where
  data : List Nat
  flags : Nat
  deriving DecidableEq, Repr

/-- Observable actions of the writer loop, in execution order. -/
inductive WriterEvent
  | write (data : List Nat)   -- self.writer.write(message.data)
  | drain                     -- await self.writer.drain()
  | taskDone                  -- self.out_queue.task_done()
  | cancelTask                -- self.task.cancel()
  deriving DecidableEq, Repr

/-- Model of `Connection.run_writer` over the (already enqueued) contents of
`out_queue`, as the trace of its actions:

```
while True:
    message: OutMessage = await self.out_queue.get()
    if message.flags == 0:
        self.writer.write(message.data)
    await self.writer.drain()
    self.out_queue.task_done()
    if message.flags:
        self.task.cancel()
```

A message with nonzero flags is NOT written (the `write` is guarded by
`flags == 0`); after `task.cancel()` the next `await` raises CancelledError,
ending the loop. An empty queue suspends, so the trace of the processed
prefix is returned. -/
def runWriter : List OutMessage → List WriterEvent
  | [] => []
  | m :: rest =>
      if m.flags = 0 then
        .write m.data :: .drain :: .taskDone :: runWriter rest
      else
        [.drain, .taskDone, .cancelTask]

/-! Section: Connection reader (src/dbat/net.py, Connection.run_reader)

The reader decodes each extracted line with
`line.decode('utf-8', errors='ignore')`: UTF-8 decoding in which every
maximal invalid subpart is silently skipped (CPython's `ignore` error
handler), never replaced and never raising. -/

/-- Is `b` a UTF-8 continuation byte (`0x80..0xBF`)? -/
def isCont (b : Nat) : Bool := 0x80 ≤ b && b ≤ 0xBF

/-- UTF-8 decode with the `ignore` error handler: returns the list
of decoded code points. A valid sequence is consumed and its code point
emitted; an invalid or truncated sequence has its maximal valid subpart
(lead byte plus any valid continuation bytes read so far) skipped with no
output. Lead-byte ranges follow RFC 3629 as CPython enforces them: `0x00-0x7F`
ASCII; `0xC2-0xDF` two-byte; `0xE0-0xEF` three-byte with the first
continuation restricted to `A0-BF` after `E0` and `80-9F` after `ED`;
`0xF0-0xF4` four-byte with the first continuation restricted to `90-BF` after
`F0` and `80-8F` after `F4`; everything else (`0x80-0xC1`, `0xF5-0xFF`) is an
invalid lead byte. -/
def utf8Ignore : List Nat → List Nat
  | [] => []
  | b :: rest =>
    if b ≤ 0x7F then b :: utf8Ignore rest
    else if b < 0xC2 then utf8Ignore rest
    else if b ≤ 0xDF then
      match rest with
      | c1 :: rest1 =>
          if isCont c1 then
            ((b - 0xC0) * 0x40 + (c1 - 0x80)) :: utf8Ignore rest1
          else utf8Ignore (c1 :: rest1)
      | [] => []
    else if b ≤ 0xEF then
      match rest with
      | c1 :: rest1 =>
          let c1ok := if b = 0xE0 then 0xA0 ≤ c1 && c1 ≤ 0xBF
                      else if b = 0xED then 0x80 ≤ c1 && c1 ≤ 0x9F
                      else isCont c1
          if c1ok then
            match rest1 with
            | c2 :: rest2 =>
                if isCont c2 then
                  ((b - 0xE0) * 0x1000 + (c1 - 0x80) * 0x40 + (c2 - 0x80)) ::
                    utf8Ignore rest2
                else utf8Ignore (c2 :: rest2)
            | [] => []
          else utf8Ignore (c1 :: rest1)
      | [] => []
    else if b ≤ 0xF4 then
      match rest with
      | c1 :: rest1 =>
          let c1ok := if b = 0xF0 then 0x90 ≤ c1 && c1 ≤ 0xBF
                      else if b = 0xF4 then 0x80 ≤ c1 && c1 ≤ 0x8F
                      else isCont c1
          if c1ok then
            match rest1 with
            | c2 :: rest2 =>
                if isCont c2 then
                  match rest2 with
                  | c3 :: rest3 =>
                      if isCont c3 then
                        ((b - 0xF0) * 0x40000 + (c1 - 0x80) * 0x1000 +
                          (c2 - 0x80) * 0x40 + (c3 - 0x80)) ::
                          utf8Ignore rest3
                      else utf8Ignore (c3 :: rest3)
                  | [] => []
                else utf8Ignore (c2 :: rest2)
            | [] => []
          else utf8Ignore (c1 :: rest1)
      | [] => []
    else utf8Ignore rest

/-- Python `bs.decode('utf-8', errors='ignore')` as a Lean `String`. -/
def decodeIgnore (bs : List Nat) : String :=
  String.mk ((utf8Ignore bs).map Char.ofNat)

/-- Index of the first occurrence of the two-byte terminator `\r\n` in the
buffer, as `in_buffer.find(b'\r\n')` computes it (`none` for Python's `-1`). -/
def findCRLF : List Nat → Option Nat
  | [] => none
  | [_] => none
  | b0 :: b1 :: rest =>
      if b0 = 13 ∧ b1 = 10 then some 0
      else (findCRLF (b1 :: rest)).map (· + 1)

/-- The reader's inner extraction loop over the buffer:

```
while b'\r\n' in in_buffer:
    line_end_pos = in_buffer.find(b'\r\n')
    line = in_buffer[:line_end_pos].decode('utf-8', errors='ignore')
    del in_buffer[:line_end_pos + 2]
    self.pending_commands.append(line)
```

Returns the lines appended (in order) and the remaining buffer. Fuel at least
the buffer length suffices, since every iteration removes `pos + 2 ≥ 2`
bytes. -/
def extractLines : Nat → List Nat → List String × List Nat
  | 0, buf => ([], buf)
  | fuel + 1, buf =>
      match findCRLF buf with
      | none => ([], buf)
      | some pos =>
          let line := decodeIgnore (buf.take pos)
          let (ls, rest) := extractLines fuel (buf.drop (pos + 2))
          (line :: ls, rest)

/-- One iteration of `run_reader`'s outer loop on a successful
`reader.read`: the chunk is appended to the buffer and complete lines are
extracted. Takes and returns `(pending_commands, in_buffer)`. -/
def readerFeed (st : List String × List Nat) (chunk : List Nat) :
    List String × List Nat :=
  let buf := st.2 ++ chunk
  let (ls, rest) := extractLines buf.length buf
  (st.1 ++ ls, rest)

/-! Section: Scheduler loop (src/dbat/core.py, Application.run)

```
async def run(self):
    try:
        await self.cleanup_nonpersistent_events()
        while True:
            await self.execute_aborts()
            await self.cleanup_events()
            await self.execute_events()
            await asyncio.sleep(0.08)
    except asyncio.CancelledError:
        logging.info("Application run cancelled.")
```

There is no exception handling inside the loop body: the only `except` clause
around the `while` catches `asyncio.CancelledError`. -/

/-- Outcome of awaiting one sweep inside a scheduler cycle. -/
inductive SweepOutcome
  | ok               -- the sweep returns normally
  | raisesCancelled  -- CancelledError delivered during the sweep
  | raisesError      -- the sweep raises any other exception
  deriving DecidableEq, Repr

/-- One scheduler cycle's three sweeps, in the fixed source order. -/
structure Cycle where
  aborts : SweepOutcome    -- await self.execute_aborts()
  cleanup : SweepOutcome   -- await self.cleanup_events()
  dispatch : SweepOutcome  -- await self.execute_events()
  deriving DecidableEq, Repr

/-- The first exception raised in a cycle, if any: the sweeps run in order
and an exception in one prevents the later sweeps (and the sleep). -/
def runCycle (c : Cycle) : Option PyExc :=
  match c.aborts with
  | .raisesCancelled => some .cancelledError
  | .raisesError => some .otherError
  | .ok =>
      match c.cleanup with
      | .raisesCancelled => some .cancelledError
      | .raisesError => some .otherError
      | .ok =>
          match c.dispatch with
          | .raisesCancelled => some .cancelledError
          | .raisesError => some .otherError
          | .ok => none

/-- How `Application.run` ends relative to a finite prefix of cycles. -/
inductive LoopExit
  | running         -- all supplied cycles completed; the loop is still going
  | cancelledCaught -- CancelledError reached the `except`: caught and logged
  | errorEscaped    -- any other exception escaped `run` entirely
  deriving DecidableEq, Repr

/-- Model of the `while True` loop of `Application.run` over a finite schedule of cycle
outcomes: returns how many cycles completed in full and how the loop ended.
A cycle that raises stops the loop immediately — `CancelledError` is caught
by the `except asyncio.CancelledError` clause, anything else propagates out
of `run`. No later cycle runs in either case. -/
def runLoop : List Cycle → Nat × LoopExit
  | [] => (0, .running)
  | c :: rest =>
      match runCycle c with
      | none =>
          let (n, e) := runLoop rest
          (n + 1, e)
      | some .cancelledError => (0, .cancelledCaught)
      | some _ => (0, .errorEscaped)

/-! Section: Store rows and the per-cycle sweeps (src/dbat/core.py) -/

/-- One row of `dbat.events`. -/
structure EventRow where
  id : Nat
  event_name : String
  parameters : String
  current_state : String
  persistent : Bool
  deriving DecidableEq, Repr

/-- Model of `Application.execute_aborts`: select ids of rows with
`current_state = 'aborted'`; for each whose id has a live instance in
`EVENTS`, call `ev.task.cancel()`. Returns the ids whose tasks were asked to
cancel; the store is not written at all. -/
def executeAborts (rows : List EventRow) (events : List Nat) : List Nat :=
  ((rows.filter (fun r => r.current_state = "aborted")).filter
    (fun r => events.contains r.id)).map (·.id)

/-- The states `Application.cleanup_events` selects:
`current_state IN ('finished', 'cancelled', 'error')`. -/
def isTerminal (s : String) : Bool :=
  s = "finished" || s = "cancelled" || s = "error"

/-- Model of `Application.cleanup_events`: for every row whose state is terminal, pop
its id from `EVENTS` (if present) and `DELETE FROM dbat.events WHERE id = $1`.
Takes and returns `(rows, EVENTS ids)`. The cursor iterates the rows selected
at the start of the transaction. -/
def cleanupEvents (rows : List EventRow) (events : List Nat) :
    List EventRow × List Nat :=
  let selected := rows.filter (fun r => isTerminal r.current_state)
  (selected.foldl (fun acc r => acc.filter (fun x => x.id ≠ r.id)) rows,
   selected.foldl (fun acc r => acc.filter (fun x => x ≠ r.id)) events)

/-- Observable actions of `Application.execute_events`, in execution order. -/
inductive SchedAction
  | deleteRows (ids : List Nat)    -- DELETE ... WHERE id = ANY($1)
  | updateActive (ids : List Nat)  -- UPDATE ... SET current_state = 'active'
  | commit                         -- the transaction block exits, committing
  | register (id : Nat)            -- EVENTS[ev.id] = ev
  | startTask (id : Nat)           -- ev.start()
  deriving DecidableEq, Repr

/-- The cursor loop of `execute_events` over the selected `pending` rows,
threading the accumulators `new_event_uuids` / `bad_event_uuids` and the
list of statements executed so far. Faithful to the source's indentation:
the two `if`-guarded `conn.execute` calls sit INSIDE the `async for`, so they
run once per record, each time with the accumulated lists. -/
def dispatchLoop (registry : List String) (new bad : List Nat)
    (acts : List SchedAction) :
    List EventRow → List Nat × List Nat × List SchedAction
  | [] => (new, bad, acts)
  | r :: rest =>
      let (new', bad') :=
        if registry.contains r.event_name then (new ++ [r.id], bad)
        else (new, bad ++ [r.id])
      let acts' := acts ++
        (if bad' ≠ [] then [SchedAction.deleteRows bad'] else []) ++
        (if new' ≠ [] then [SchedAction.updateActive new'] else [])
      dispatchLoop registry new' bad' acts' rest

/-- Model of `Application.execute_events`: inside one transaction, walk the rows with
`current_state = 'pending'`, resolving each `event_name` against the handler
registry; after the transaction commits, register each new handler in
`EVENTS` and start it. Returns the action trace and the ids added to
`EVENTS` (in order). -/
def executeEvents (registry : List String) (rows : List EventRow) :
    List SchedAction × List Nat :=
  let res := dispatchLoop registry [] [] [] (rows.filter (fun r => r.current_state = "pending"))
  (res.2.2 ++ [SchedAction.commit] ++
     (res.1.map (fun id => [SchedAction.register id, SchedAction.startTask id])).flatten,
   res.1)

/-! Section: Connection teardown (src/dbat/net.py)

Module-level registries as the source declares AND initialises them:

```
CONNECTIONS: typing.Dict[uuid.UUID, Connection] = dict()
NEW_CONNECTIONS: typing.Set[uuid.UUID] = set()
DEAD_CONNECTIONS: typing.Dict[uuid.UUID, Connection] = set()
PENDING_COMMANDS: typing.Set[uuid.UUID] = set()
```

`DEAD_CONNECTIONS` is annotated as a dict but its runtime value is `set()`.
The model keeps the runtime type, since Python annotations have no effect. -/

/-- A Python container that is either a dict (keys paired with values) or a
set of keys. Values are connection ids standing in for Connection objects. -/
inductive PyContainer
  | dict (entries : List (Nat × Nat))
  | set (elems : List Nat)
  deriving DecidableEq, Repr

/-- Python subscript assignment `cont[k] = v`: valid on a dict, raises
`TypeError: 'set' object does not support item assignment` on a set. -/
def setItem (cont : PyContainer) (k v : Nat) : Except PyExc PyContainer :=
  match cont with
  | .dict es => .ok (.dict ((es.filter (fun e => e.1 ≠ k)) ++ [(k, v)]))
  | .set _ => .error .typeError

/-- Python `d.pop(k)`: removes and returns the value on a dict (KeyError when
absent); `set.pop` takes no key argument, so a one-argument call raises
TypeError. -/
def dictPop (cont : PyContainer) (k : Nat) :
    Except PyExc (Nat × PyContainer) :=
  match cont with
  | .dict es =>
      match es.find? (fun e => e.1 = k) with
      | some e => .ok (e.2, .dict (es.filter (fun e => e.1 ≠ k)))
      | none => .error .keyError
  | .set _ => .error .typeError

/-- Python `del cont[k]`: valid on a dict holding `k` (KeyError otherwise);
raises `TypeError: 'set' object doesn't support item deletion` on a set. -/
def delItem (cont : PyContainer) (k : Nat) : Except PyExc PyContainer :=
  match cont with
  | .dict es =>
      if es.any (fun e => e.1 = k) then
        .ok (.dict (es.filter (fun e => e.1 ≠ k)))
      else .error .keyError
  | .set _ => .error .typeError

/-- The registries and socket state a Connection's teardown touches. -/
structure NetState where
  connections : PyContainer       -- CONNECTIONS
  newConnections : PyContainer    -- NEW_CONNECTIONS
  deadConnections : PyContainer   -- DEAD_CONNECTIONS
  socketClosed : Bool             -- self.writer.close() was called
  deriving DecidableEq, Repr

/-- The `finally` block of `Connection.run`:

```
finally:
    self.writer.close()
    DEAD_CONNECTIONS[self.conn_id] = CONNECTIONS.pop(self.conn_id)
    del NEW_CONNECTIONS[self.conn_id]
```

runs once whenever the parent task ends (normal end, error, or
cancellation). The right-hand side `CONNECTIONS.pop(...)` is evaluated before
the subscript assignment; an exception at any statement aborts the rest of
the block and propagates. Returns the state reached and the exception (if
any) the block raised. -/
def teardownFinally (st : NetState) (connId : Nat) :
    NetState × Option PyExc :=
  let st1 := { st with socketClosed := true }
  match dictPop st1.connections connId with
  | .error e => (st1, some e)
  | .ok (v, conns') =>
      let st2 := { st1 with connections := conns' }
      match setItem st2.deadConnections connId v with
      | .error e => (st2, some e)
      | .ok dead' =>
          let st3 := { st2 with deadConnections := dead' }
          match delItem st3.newConnections connId with
          | .error e => (st3, some e)
          | .ok newc' => ({ st3 with newConnections := newc' }, none)

/-- The module-level initial value of `DEAD_CONNECTIONS`: `set()`, despite
the `typing.Dict` annotation. -/
def deadConnectionsInit : PyContainer := .set []

/-- The module-level initial value of `NEW_CONNECTIONS`: `set()`. No code in
the repository ever adds to it. -/
def newConnectionsInit : PyContainer := .set []

/-! Section: Helper lemmas -/

/-- An element of the accumulator survives a fold of filters when it passes
every filter predicate. -/
theorem mem_foldl_filter {α β : Type} (p : β → α → Bool) (sel : List β) :
    ∀ (l : List α) (x : α), x ∈ l → (∀ t ∈ sel, p t x = true) →
      x ∈ sel.foldl (fun acc t => acc.filter (p t)) l := by
  induction sel with
  | nil => intro l x hx _; simpa using hx
  | cons t ts ih =>
      intro l x hx hp
      simp only [List.foldl_cons]
      exact ih (l.filter (p t)) x
        (List.mem_filter.mpr ⟨hx, hp t (List.mem_cons_self t ts)⟩)
        (fun u hu => hp u (List.mem_cons_of_mem t hu))

/-! Section: Claims -/

/-- C1: For every handler execution, exactly one store update keyed by the
event id is written and never a row delete — but the claimed outcome states
are NOT what the code produces on the normal-return path. The source calls
`await self._mark_state(conn, "finished")` with two positional arguments
while `_mark_state(self, new_state)` accepts one, so Python raises
`TypeError`, the `except Exception` clause rewraps it into `EventError`, the
transaction rolls back, and the outer `except self.EventError` handler writes
state `'error'`. Hence: normal return ⟹ one update to `'error'` (the claim
says `'finished'`); a non-cancellation error ⟹ one update to `'error'`;
cancellation ⟹ one update to `'cancelled'`; never a delete. -/
theorem C1_executeEvent_outcomes (id : Nat) :
    executeEvent id RunResult.ok =
      { storeOps := [StoreOp.update id "error"], committed := false,
        escaped := none } ∧
    executeEvent id RunResult.raisesCancelled =
      { storeOps := [StoreOp.update id "cancelled"], committed := false,
        escaped := none } ∧
    executeEvent id RunResult.raisesEventError =
      { storeOps := [StoreOp.update id "error"], committed := false,
        escaped := none } ∧
    executeEvent id RunResult.raisesOther =
      { storeOps := [StoreOp.update id "error"], committed := false,
        escaped := none } :=
  ⟨rfl, rfl, rfl, rfl⟩

/-- C2 counterexample: a schedule whose first cycle raises a
non-cancellation error in the cleanup sweep, followed by a healthy cycle.
The claim predicts the error is contained and the next tick runs; in the
code there is no exception handling inside the `while` loop, so `runLoop`
completes zero cycles, the error escapes `run`, and the second cycle never
executes. -/
theorem C2_counterexample :
    runLoop [⟨SweepOutcome.ok, SweepOutcome.raisesError, SweepOutcome.ok⟩,
             ⟨SweepOutcome.ok, SweepOutcome.ok, SweepOutcome.ok⟩] =
      (0, LoopExit.errorEscaped) := by decide

/-- C2 (amended): the scheduler loop stops on deliberate cancellation, which
is caught and logged; any other error raised inside a per-cycle sweep is not
contained — it propagates out of `Application.run` and the loop does not run
its next tick. -/
theorem C2_sweep_error_stops_loop (c : Cycle) (rest : List Cycle) (e : PyExc)
    (h : runCycle c = some e) :
    runLoop (c :: rest) =
      (0, if e = PyExc.cancelledError then LoopExit.cancelledCaught
          else LoopExit.errorEscaped) := by
  cases e <;> simp [runLoop, h]

/-- C2 witness: the amended theorem applied to a concrete schedule whose
first cycle raises an error in the cleanup sweep. -/
theorem C2_sweep_error_stops_loop_witness :
    runCycle ⟨SweepOutcome.ok, SweepOutcome.raisesError, SweepOutcome.ok⟩ =
      some PyExc.otherError ∧
    runLoop [⟨SweepOutcome.ok, SweepOutcome.raisesError, SweepOutcome.ok⟩,
             ⟨SweepOutcome.ok, SweepOutcome.ok, SweepOutcome.ok⟩] =
      (0, if PyExc.otherError = PyExc.cancelledError then LoopExit.cancelledCaught
          else LoopExit.errorEscaped) :=
  ⟨by decide, C2_sweep_error_stops_loop _ _ _ (by decide)⟩

/-- C3: when a Connection's parent task ends, the `finally` block closes the
socket and pops the id from the live registry, but the insertion into the
dead registry raises `TypeError`: `DEAD_CONNECTIONS` is initialised as
`set()` (despite its `typing.Dict` annotation) and a set does not support
item assignment. The id is therefore never inserted into the dead registry
(and the following `del NEW_CONNECTIONS[...]` never even runs). -/
theorem C3_teardown_dead_insert_fails :
    teardownFinally
      { connections := PyContainer.dict [(4, 4)],
        newConnections := newConnectionsInit,
        deadConnections := deadConnectionsInit,
        socketClosed := false } 4 =
      ({ connections := PyContainer.dict [],
         newConnections := PyContainer.set [],
         deadConnections := PyContainer.set [],
         socketClosed := true }, some PyExc.typeError) := by decide

/-- C4 counterexample: a dequeued message with the close-after-send flag set
(`flags = 1`) and payload `[1, 2, 3]`. The claim says its raw bytes are
written and flushed; in the code the `write` is guarded by
`message.flags == 0`, so the bytes never reach the stream — the trace holds
no write of `[1, 2, 3]`. -/
theorem C4_counterexample :
    runWriter [⟨[1, 2, 3], 1⟩] =
      [WriterEvent.drain, WriterEvent.taskDone, WriterEvent.cancelTask] ∧
    WriterEvent.write [1, 2, 3] ∉ runWriter [⟨[1, 2, 3], 1⟩] := by decide

/-- C4 (amended): for every dequeued OutMessage with nonzero flags the writer
does NOT write its raw bytes (only `flags == 0` messages are written); it
awaits a drain of the stream and only then cancels the connection's task, so
the lifecycle ends strictly after that drain completes, never before. -/
theorem C4_flagged_message_not_written (m : OutMessage) (rest : List OutMessage)
    (h : m.flags ≠ 0) :
    runWriter (m :: rest) =
      [WriterEvent.drain, WriterEvent.taskDone, WriterEvent.cancelTask] := by
  simp [runWriter, h]

/-- C4 witness: the amended theorem applied to a concrete flagged message. -/
theorem C4_flagged_message_not_written_witness :
    (OutMessage.mk [4, 2] 1).flags ≠ 0 ∧
    runWriter [⟨[4, 2], 1⟩] =
      [WriterEvent.drain, WriterEvent.taskDone, WriterEvent.cancelTask] :=
  ⟨by decide, C4_flagged_message_not_written ⟨[4, 2], 1⟩ [] (by decide)⟩

/-- C5 counterexample: the line bytes `[0xFF, 0x61]`. The claim says the
invalid byte `0xFF` is replaced by a substitution character; the code decodes
with `errors='ignore'`, so the byte is dropped and the result is `"a"`, not
`"�" ++ "a"`. -/
theorem C5_counterexample :
    decodeIgnore [255, 97] = "a" ∧
    decodeIgnore [255, 97] ≠ String.mk [Char.ofNat 0xFFFD, Char.ofNat 97] := by
  constructor
  · decide
  · decide

/-- C5 (amended): decoding an extracted line never fails, but a byte that
cannot start a valid UTF-8 sequence (a stray continuation byte or overlong
lead `0x80-0xC1`, or an out-of-range lead `0xF5-0xFF`) is dropped by the
`errors='ignore'` handler — not replaced by a substitution character. -/
theorem C5_invalid_lead_byte_dropped (b : Nat) (bs : List Nat)
    (h : (0x80 ≤ b ∧ b < 0xC2) ∨ 0xF5 ≤ b) :
    decodeIgnore (b :: bs) = decodeIgnore bs := by
  have key : utf8Ignore (b :: bs) = utf8Ignore bs := by
    rcases h with ⟨h1, h2⟩ | h1
    · rw [utf8Ignore.eq_def]
      simp only []
      rw [if_neg (by omega), if_pos h2]
    · rw [utf8Ignore.eq_def]
      simp only []
      rw [if_neg (by omega), if_neg (by omega), if_neg (by omega),
        if_neg (by omega), if_neg (by omega)]
  simp only [decodeIgnore, key]

/-- C5 witness: the amended theorem applied to the concrete line
`[0xFF, 0x61]`: the invalid byte is dropped. -/
theorem C5_invalid_lead_byte_dropped_witness :
    ((0x80 ≤ 255 ∧ 255 < 0xC2) ∨ 0xF5 ≤ (255 : Nat)) ∧
    decodeIgnore [255, 97] = decodeIgnore [97] :=
  ⟨Or.inr (by decide), C5_invalid_lead_byte_dropped 255 [97] (Or.inr (by decide))⟩

/-- C6: the reader splits the inbound byte stream exactly at CR LF and keeps
unterminated tail bytes across reads: feeding `"look\r\n"` then `"nor"`
yields exactly the line `"look"` with `"nor"` retained in the buffer, and
feeding `"he"` then `"llo\r\n"` yields exactly the line `"hello"`. -/
theorem C6_reader_splits_at_crlf :
    readerFeed (readerFeed ([], []) [108, 111, 111, 107, 13, 10])
        [110, 111, 114] =
      (["look"], [110, 111, 114]) ∧
    readerFeed (readerFeed ([], []) [104, 101]) [108, 108, 111, 13, 10] =
      (["hello"], []) := by decide

/-- C7: for messages A then B on one connection's outbound queue, both
without control flags, the writer writes A's bytes, drains (flushes) the
stream, and only then writes B's bytes — the trace order equals the enqueue
order with no reordering or batching. -/
theorem C7_writer_fifo_order (a b : OutMessage) (rest : List OutMessage)
    (ha : a.flags = 0) (hb : b.flags = 0) :
    runWriter (a :: b :: rest) =
      WriterEvent.write a.data :: WriterEvent.drain :: WriterEvent.taskDone ::
      WriterEvent.write b.data :: WriterEvent.drain :: WriterEvent.taskDone ::
      runWriter rest := by
  simp [runWriter, ha, hb]

/-- C7 witness: the theorem applied to two concrete unflagged messages. -/
theorem C7_writer_fifo_order_witness :
    (OutMessage.mk [1] 0).flags = 0 ∧ (OutMessage.mk [2] 0).flags = 0 ∧
    runWriter [⟨[1], 0⟩, ⟨[2], 0⟩] =
      WriterEvent.write [1] :: WriterEvent.drain :: WriterEvent.taskDone ::
      WriterEvent.write [2] :: WriterEvent.drain :: WriterEvent.taskDone ::
      runWriter [] :=
  ⟨rfl, rfl, C7_writer_fifo_order ⟨[1], 0⟩ ⟨[2], 0⟩ [] rfl rfl⟩

/-- Membership in a conditional singleton list forces equality with its
element. -/
theorem eq_of_mem_if_singleton {α : Type} {a x : α} {c : Prop} [Decidable c]
    (h : a ∈ (if c then [x] else [])) : a = x := by
  split at h
  · simpa using h
  · simp at h

/-- Every action the dispatch cursor loop appends to the transaction is a
bulk delete or a bulk state update: the loop itself never commits, registers
an instance, or starts a task. -/
theorem dispatchLoop_acts_bulk (registry : List String) (rows : List EventRow) :
    ∀ (new bad : List Nat) (acts : List SchedAction),
      (∀ a ∈ acts, (∃ ids, a = SchedAction.deleteRows ids) ∨
        (∃ ids, a = SchedAction.updateActive ids)) →
      ∀ a ∈ (dispatchLoop registry new bad acts rows).2.2,
        (∃ ids, a = SchedAction.deleteRows ids) ∨
        (∃ ids, a = SchedAction.updateActive ids) := by
  induction rows with
  | nil => intro new bad acts h; simpa [dispatchLoop] using h
  | cons r rest ih =>
      intro new bad acts h
      simp only [dispatchLoop]
      apply ih
      intro a ha
      rcases List.mem_append.mp ha with ha' | hup
      · rcases List.mem_append.mp ha' with hacts | hdel
        · exact h a hacts
        · exact Or.inl ⟨_, eq_of_mem_if_singleton hdel⟩
      · exact Or.inr ⟨_, eq_of_mem_if_singleton hup⟩

/-- Every id the dispatch cursor loop accumulates into `new_event_uuids` is
contained in some bulk `updateActive` statement already executed inside the
transaction. -/
theorem dispatchLoop_new_covered (registry : List String) (rows : List EventRow) :
    ∀ (new bad : List Nat) (acts : List SchedAction),
      (∀ x ∈ new, ∃ ids, SchedAction.updateActive ids ∈ acts ∧ x ∈ ids) →
      ∀ x ∈ (dispatchLoop registry new bad acts rows).1,
        ∃ ids, SchedAction.updateActive ids ∈
          (dispatchLoop registry new bad acts rows).2.2 ∧ x ∈ ids := by
  induction rows with
  | nil => intro new bad acts h; simpa [dispatchLoop] using h
  | cons r rest ih =>
      intro new bad acts h
      simp only [dispatchLoop]
      apply ih
      by_cases hc : registry.contains r.event_name
      · simp only [hc, if_true]
        intro x hx
        refine ⟨new ++ [r.id], ?_, hx⟩
        have hne : (new ++ [r.id]) ≠ [] := by simp
        apply List.mem_append_right
        simp [hne]
      · simp only [hc, if_false]
        intro x hx
        rcases h x hx with ⟨ids, hmem, hxm⟩
        exact ⟨ids, List.mem_append_left _ (List.mem_append_left _ hmem), hxm⟩

/-- C8: in every dispatch sweep, each started task's event id was part of a
bulk `updateActive` statement executed inside the transaction, the
transaction's commit precedes every `startTask` action, and nothing inside
the transaction starts a task. -/
theorem C8_active_commits_before_start (registry : List String)
    (rows : List EventRow) (id : Nat)
    (h : SchedAction.startTask id ∈ (executeEvents registry rows).1) :
    ∃ pre post, (executeEvents registry rows).1 =
        pre ++ SchedAction.commit :: post ∧
      (∀ n, SchedAction.startTask n ∉ pre) ∧
      SchedAction.startTask id ∈ post ∧
      ∃ ids, SchedAction.updateActive ids ∈ pre ∧ id ∈ ids := by
  have hbulk := dispatchLoop_acts_bulk registry
    (rows.filter (fun r => r.current_state = "pending")) [] [] []
    (by intro a ha; simp at ha)
  have hnostart : ∀ n, SchedAction.startTask n ∉
      (dispatchLoop registry [] [] []
        (rows.filter (fun r => r.current_state = "pending"))).2.2 := by
    intro n hmem
    rcases hbulk _ hmem with ⟨ids, he⟩ | ⟨ids, he⟩ <;> simp at he
  refine ⟨(dispatchLoop registry [] [] []
      (rows.filter (fun r => r.current_state = "pending"))).2.2,
    ((dispatchLoop registry [] [] []
      (rows.filter (fun r => r.current_state = "pending"))).1.map
        (fun i => [SchedAction.register i, SchedAction.startTask i])).flatten,
    by simp [executeEvents], hnostart, ?_, ?_⟩
  · have h' := h
    simp only [executeEvents] at h'
    rcases List.mem_append.mp h' with h'' | hpost
    · rcases List.mem_append.mp h'' with htxn | hcommit
      · exact absurd htxn (hnostart id)
      · simp at hcommit
    · exact hpost
  · have hid : id ∈ (dispatchLoop registry [] [] []
        (rows.filter (fun r => r.current_state = "pending"))).1 := by
      have h' := h
      simp only [executeEvents] at h'
      rcases List.mem_append.mp h' with h'' | hpost
      · rcases List.mem_append.mp h'' with htxn | hcommit
        · exact absurd htxn (hnostart id)
        · simp at hcommit
      · rcases List.mem_flatten.mp hpost with ⟨l, hl, hmem⟩
        rcases List.mem_map.mp hl with ⟨i, hi, rfl⟩
        simp only [List.mem_cons, List.not_mem_nil, or_false] at hmem
        rcases hmem with h3 | h3
        · exact absurd h3 (by simp)
        · injection h3 with h4
          rw [h4]
          exact hi
    exact dispatchLoop_new_covered registry
      (rows.filter (fun r => r.current_state = "pending")) [] [] []
      (by intro x hx; simp at hx) id hid

/-- C8 witness: one concrete pending row whose name resolves; its task start
is preceded by the committed `updateActive` containing its id. -/
theorem C8_active_commits_before_start_witness :
    SchedAction.startTask 1 ∈
      (executeEvents ["ClientConnected"]
        [⟨1, "ClientConnected", "", "pending", true⟩]).1 ∧
    ∃ pre post, (executeEvents ["ClientConnected"]
        [⟨1, "ClientConnected", "", "pending", true⟩]).1 =
        pre ++ SchedAction.commit :: post ∧
      (∀ n, SchedAction.startTask n ∉ pre) ∧
      SchedAction.startTask 1 ∈ post ∧
      ∃ ids, SchedAction.updateActive ids ∈ pre ∧ 1 ∈ ids :=
  ⟨by decide, C8_active_commits_before_start _ _ _ (by decide)⟩

/-- C9 counterexample: a store holding one row in state `'aborted'` with no
live Handler instance. The abort sweep leaves it unchanged (as the claim
says), but the subsequent cleanup sweep selects only
`('finished', 'cancelled', 'error')` rows, so it does NOT remove the row —
the cleanup output still contains it, refuting the claim's second half. -/
theorem C9_counterexample :
    executeAborts [⟨5, "x", "", "aborted", true⟩] [] = [] ∧
    cleanupEvents [⟨5, "x", "", "aborted", true⟩] [] =
      ([⟨5, "x", "", "aborted", true⟩], []) := by decide

/-- C9 (amended): for every event row in state `'aborted'` whose id has no
live Handler instance, the abort sweep requests no cancellation for it and
writes nothing; and because the cleanup sweep selects only terminal states
(`'finished'`, `'cancelled'`, `'error'`), the row survives every cleanup
sweep — it is never removed from the store. -/
theorem C9_aborted_row_not_cleaned (rows : List EventRow) (events : List Nat)
    (r : EventRow) (hmem : r ∈ rows) (hstate : r.current_state = "aborted")
    (hlive : events.contains r.id = false)
    (huniq : ∀ r' ∈ rows, r'.id = r.id → r' = r) :
    r.id ∉ executeAborts rows events ∧ r ∈ (cleanupEvents rows events).1 := by
  constructor
  · intro hin
    rcases List.mem_map.mp hin with ⟨r', hr', hid⟩
    rcases List.mem_filter.mp hr' with ⟨_, hcond⟩
    rw [hid] at hcond
    rw [hlive] at hcond
    exact Bool.noConfusion hcond
  · simp only [cleanupEvents]
    apply mem_foldl_filter _ _ _ _ hmem
    intro t ht
    rcases List.mem_filter.mp ht with ⟨htr, hterm⟩
    have hne : r.id ≠ t.id := by
      intro he
      have : t = r := huniq t htr he.symm
      rw [this, hstate] at hterm
      exact Bool.noConfusion hterm
    simp [hne]

/-- C9 witness: the amended theorem applied to the one-row store of the
counterexample. -/
theorem C9_aborted_row_not_cleaned_witness :
    ((⟨5, "x", "", "aborted", true⟩ : EventRow) ∈
      [(⟨5, "x", "", "aborted", true⟩ : EventRow)]) ∧
    (5 : Nat) ∉ executeAborts [⟨5, "x", "", "aborted", true⟩] [] ∧
    (⟨5, "x", "", "aborted", true⟩ : EventRow) ∈
      (cleanupEvents [⟨5, "x", "", "aborted", true⟩] []).1 := by
  refine ⟨by decide, ?_⟩
  have h := C9_aborted_row_not_cleaned [⟨5, "x", "", "aborted", true⟩] []
    ⟨5, "x", "", "aborted", true⟩ (by decide) (by decide) (by decide)
    (by intro r' h1 h2; simpa using h1)
  exact h

/-- C10: for every event the dispatch sweep starts, its handler instance is
registered in the in-memory `EVENTS` table strictly before `ev.start()` runs
(the `register` action precedes the `startTask` action in the sweep's
trace), and its id is among the ids the sweep adds to `EVENTS` — so the
abort sweep's `EVENTS.get(record['id'])` lookup can find the live task. -/
theorem C10_registered_before_started (registry : List String)
    (rows : List EventRow) (id : Nat)
    (h : SchedAction.startTask id ∈ (executeEvents registry rows).1) :
    (∃ pre post, (executeEvents registry rows).1 =
        pre ++ SchedAction.register id :: post ∧
      SchedAction.startTask id ∈ post) ∧
    id ∈ (executeEvents registry rows).2 := by
  have hbulk := dispatchLoop_acts_bulk registry
    (rows.filter (fun r => r.current_state = "pending")) [] [] []
    (by intro a ha; simp at ha)
  have hnostart : ∀ n, SchedAction.startTask n ∉
      (dispatchLoop registry [] [] []
        (rows.filter (fun r => r.current_state = "pending"))).2.2 := by
    intro n hmem
    rcases hbulk _ hmem with ⟨ids, he⟩ | ⟨ids, he⟩ <;> simp at he
  have hid : id ∈ (dispatchLoop registry [] [] []
      (rows.filter (fun r => r.current_state = "pending"))).1 := by
    have h' := h
    simp only [executeEvents] at h'
    rcases List.mem_append.mp h' with h'' | hpost
    · rcases List.mem_append.mp h'' with htxn | hcommit
      · exact absurd htxn (hnostart id)
      · simp at hcommit
    · rcases List.mem_flatten.mp hpost with ⟨l, hl, hmem⟩
      rcases List.mem_map.mp hl with ⟨i, hi, rfl⟩
      simp only [List.mem_cons, List.not_mem_nil, or_false] at hmem
      rcases hmem with h3 | h3
      · exact absurd h3 (by simp)
      · injection h3 with h4
        rw [h4]
        exact hi
  refine ⟨?_, by simpa [executeEvents] using hid⟩
  rcases List.append_of_mem hid with ⟨l1, l2, hsplit⟩
  refine ⟨(dispatchLoop registry [] [] []
      (rows.filter (fun r => r.current_state = "pending"))).2.2 ++
      [SchedAction.commit] ++
      ((l1.map (fun i => [SchedAction.register i, SchedAction.startTask i])).flatten),
    SchedAction.startTask id ::
      ((l2.map (fun i => [SchedAction.register i, SchedAction.startTask i])).flatten),
    ?_, List.mem_cons_self _ _⟩
  simp only [executeEvents]
  rw [hsplit]
  simp [List.append_assoc]

/-- C10 witness: one concrete pending row whose name resolves; its `register`
action precedes its `startTask` action and its id enters `EVENTS`. -/
theorem C10_registered_before_started_witness :
    SchedAction.startTask 1 ∈
      (executeEvents ["ClientDisconnected"]
        [⟨1, "ClientDisconnected", "", "pending", false⟩]).1 ∧
    ((∃ pre post, (executeEvents ["ClientDisconnected"]
        [⟨1, "ClientDisconnected", "", "pending", false⟩]).1 =
        pre ++ SchedAction.register 1 :: post ∧
      SchedAction.startTask 1 ∈ post) ∧
    1 ∈ (executeEvents ["ClientDisconnected"]
        [⟨1, "ClientDisconnected", "", "pending", false⟩]).2) :=
  ⟨by decide, C10_registered_before_started _ _ _ (by decide)⟩

end Dbat
